import Mathlib

/-!
Shallow embedding of `src/lambda_function.py` (AWS S3 automated backup
handler) and proofs of the specification's claims about it.

The Python module has one handler `lambda_handler(event, context)` plus three
helpers: `format_success_message`, `format_failure_message`,
`send_failure_notification`.  External collaborators (the S3 `copy_object`
call and the SNS `publish` call) are modelled as deterministic functions
packaged in a `World`; a call either returns a response or raises an
exception, modelled with `Except PyError`.  Wall-clock time
(`datetime.now()` formatted as a string) is passed in as a `now : String`
parameter.  `print` logging is not modelled.
-/

namespace Backup

/-- Python exceptions that can arise in the module: `KeyError` from a missing
dict key, `IndexError` from `Records[0]` on an empty list, `ValueError` raised
by the configuration checks, and exceptions thrown by the AWS client calls
(carrying the exception class name and message). -/
inductive PyError where
  | keyError (key : String)
  | indexError (msg : String)
  | valueError (msg : String)
  | awsError (typeName : String) (msg : String)
deriving DecidableEq, Repr

/-- Python `str(e)`: `str(KeyError('k'))` is `"'k'"`; the others render their
message. -/
def PyError.str : PyError → String
  | .keyError k => "'" ++ k ++ "'"
  | .indexError m => m
  | .valueError m => m
  | .awsError _ m => m

/-- Python `type(e).__name__`. -/
def PyError.typeName : PyError → String
  | .keyError _ => "KeyError"
  | .indexError _ => "IndexError"
  | .valueError _ => "ValueError"
  | .awsError n _ => n

/-- `event['Records'][i]['s3']['object']` : the `key` and `size` entries may
be absent (a missing dict key raises `KeyError`). -/
structure S3ObjectRec where
  key : Option String
  size : Option Nat
deriving DecidableEq, Repr

/-- `event['Records'][i]['s3']['bucket']` : the `name` entry may be absent. -/
structure S3BucketRec where
  name : Option String
deriving DecidableEq, Repr

/-- `event['Records'][i]['s3']` : the `bucket` and `object` entries may be
absent. -/
structure S3Part where
  bucket : Option S3BucketRec
  object : Option S3ObjectRec
deriving DecidableEq, Repr

/-- One entry of `event['Records']` : the `s3` and `eventTime` entries may be
absent. -/
structure EventRecord where
  s3 : Option S3Part
  eventTime : Option String
deriving DecidableEq, Repr

/-- The trigger event: the `Records` entry may be absent, and when present is
a (possibly empty) list. -/
structure Event where
  records : Option (List EventRecord)
deriving DecidableEq, Repr

/-- The two environment variables read by `os.environ.get`: `none` models an
absent variable (Python `None`). -/
structure Env where
  BACKUP_BUCKET : Option String
  SNS_TOPIC_ARN : Option String
deriving DecidableEq, Repr

/-- Python truthiness of an `os.environ.get` result: `None` and `""` are
falsy (`if not backup_bucket`). -/
def optTruthy : Option String → Bool
  | none => false
  | some s => s ≠ ""

/-- Arguments of `s3_client.copy_object(CopySource={'Bucket': sourceBucket,
'Key': sourceKey}, Bucket=destBucket, Key=destKey,
ServerSideEncryption=encryption)`. -/
structure CopyRequest where
  sourceBucket : String
  sourceKey : String
  destBucket : String
  destKey : String
  encryption : String
deriving DecidableEq, Repr

/-- Arguments of `sns_client.publish(TopicArn=..., Subject=..., Message=...)`. -/
structure PublishRequest where
  topicArn : String
  subject : String
  message : String
deriving DecidableEq, Repr

/-- Response of a successful `copy_object` (content-integrity tag). -/
structure CopyResponse where
  etag : String
deriving DecidableEq, Repr

/-- Response of a successful `publish` (delivery identifier). -/
structure PublishResponse where
  messageId : String
deriving DecidableEq, Repr

/-- The external collaborators, modelled as deterministic functions from the
request actually sent to either a response or a raised exception. -/
structure World where
  copyObject : CopyRequest → Except PyError CopyResponse
  publish : PublishRequest → Except PyError PublishResponse

/-- The JSON body returned on success:
`{'message':…, 'source':…, 'destination':…, 'size_bytes':…, 'timestamp':…}`. -/
structure Body where
  message : String
  source : String
  destination : String
  size_bytes : Nat
  timestamp : String
deriving DecidableEq, Repr

/-- The handler's return value `{'statusCode': …, 'body': …}`. -/
structure Response where
  statusCode : Nat
  body : Body
deriving DecidableEq, Repr

/-- The spec's failure taxonomy, identifying which `except` branch of the
handler ran: `except KeyError` ↦ `MalformedEvent`, `except ValueError` ↦
`ConfigurationError`, `except Exception` ↦ `StorageOperationError`. -/
inductive ErrKind where
  | MalformedEvent
  | ConfigurationError
  | StorageOperationError
deriving DecidableEq, Repr

instance exceptDecEq {ε α : Type} [DecidableEq ε] [DecidableEq α] :
    DecidableEq (Except ε α) := fun a b =>
  match a, b with
  | .error e, .error f =>
    if h : e = f then .isTrue (by rw [h])
    else .isFalse (fun hh => h (by injection hh))
  | .error _, .ok _ => .isFalse (fun hh => Except.noConfusion hh)
  | .ok _, .error _ => .isFalse (fun hh => Except.noConfusion hh)
  | .ok x, .ok y =>
    if h : x = y then .isTrue (by rw [h])
    else .isFalse (fun hh => h (by injection hh))

/-- Observable outcome of one invocation: the value returned or exception
propagated, the failure classification (which `except` branch ran, `none` on
success), and the copy and publish calls issued, in order.  A publish call
that itself raised is still recorded as attempted. -/
structure HandlerTrace where
  result : Except PyError Response
  classification : Option ErrKind
  copyCalls : List CopyRequest
  publishCalls : List PublishRequest
deriving DecidableEq, Repr

/-! ### Python number formatting used by the messages -/

/-- Insert a `','` every three characters of a reversed digit list (helper
for Python's `{n:,}` format). -/
def commaRev : List Char → List Char
  | a :: b :: c :: d :: rest => a :: b :: c :: ',' :: commaRev (d :: rest)
  | l => l

/-- Python `f"{n:,}"` for a non-negative integer: decimal digits with
thousands separators. -/
def pyComma (n : Nat) : String :=
  String.mk (commaRev (Nat.repr n).data.reverse).reverse

/-- Round `N / D` to the nearest integer, ties to even — the rounding used by
Python's `format(x, '.2f')` on an exactly-representable value. -/
def roundHalfEvenDiv (N D : Nat) : Nat :=
  let q := N / D
  let r := N % D
  if 2 * r < D then q
  else if D < 2 * r then q + 1
  else if q % 2 = 0 then q else q + 1

/-- Python `f"{file_size / (1024 * 1024):.2f}"` for `file_size : Nat`: the
size in MB with two decimals.  `file_size / 2^20` is exact in double
precision for every size below `2^53`, so `.2f` rounds the true rational
value half-to-even; `roundHalfEvenDiv (25 * size) 262144` computes that
rounding of `100 * size / 2^20`. -/
def pyMB2f (size : Nat) : String :=
  let n := roundHalfEvenDiv (25 * size) 262144
  let ip := n / 100
  let fp := n % 100
  Nat.repr ip ++ "." ++ (if fp < 10 then "0" else "") ++ Nat.repr fp

/-! ### Substring containment -/

/-- `isPrefixOfChars pat l` : `pat` is a prefix of `l` (on character lists). -/
def isPrefixOfChars : List Char → List Char → Bool
  | [], _ => true
  | _ :: _, [] => false
  | p :: ps, c :: cs => p == c && isPrefixOfChars ps cs

/-- `containsSub pat l` : `pat` occurs as a contiguous run inside `l`. -/
def containsSub (pat : List Char) : List Char → Bool
  | [] => isPrefixOfChars pat []
  | c :: cs => isPrefixOfChars pat (c :: cs) || containsSub pat cs

/-- `strContains s pat` : `pat` occurs as a substring of `s`. -/
def strContains (s pat : String) : Bool :=
  containsSub pat.data s.data

/-! ### The message formatters (`format_success_message`,
`format_failure_message`) and `send_failure_notification` -/

/-- `format_success_message(object_key, file_size, source_bucket,
backup_bucket, timestamp)` from the source, with Python's
`{file_size:,}` and `{file_size_mb:.2f}` renderings. -/
def format_success_message (object_key : String) (file_size : Nat)
    (source_bucket backup_bucket timestamp : String) : String :=
  "\nBACKUP OPERATION SUCCESSFUL\n\nFile Details:\n-------------\nFile Name: "
    ++ object_key
    ++ "\nFile Size: " ++ pyComma file_size ++ " bytes (" ++ pyMB2f file_size
    ++ " MB)\n\nSource Location:\n---------------\nBucket: "
    ++ source_bucket
    ++ "\nRegion: us-east-1 (N. Virginia)\n\nBackup Location:\n---------------\nBucket: "
    ++ backup_bucket
    ++ "\nRegion: us-west-2 (Oregon)\n\nOperation Details:\n-----------------\nStatus: SUCCESS\nTimestamp: "
    ++ timestamp
    ++ "\nEncryption: AES256 (Server-side)\n\nYour file has been successfully replicated to the backup region.\nThis provides protection against regional failures and data loss.\n\n---\nAutomated AWS S3 Backup System\n"

/-- `format_failure_message(error_msg, error_type, object_key, source_bucket,
backup_bucket)` from the source; the timestamp it captures internally with
`datetime.now()` is passed as `now`. -/
def format_failure_message (now error_msg error_type object_key
    source_bucket backup_bucket : String) : String :=
  "\nBACKUP OPERATION FAILED - ACTION REQUIRED\n\nError Details:\n-------------\nError Type: "
    ++ error_type
    ++ "\nError Message: " ++ error_msg
    ++ "\nTimestamp: " ++ now
    ++ "\n\nFile Information:\n----------------\nFile Name: " ++ object_key
    ++ "\nSource Bucket: " ++ source_bucket
    ++ "\nBackup Bucket: " ++ backup_bucket
    ++ "\n\nTroubleshooting Steps:\n---------------------\n1. Check CloudWatch Logs for detailed error information\n2. Verify IAM role permissions (S3 read/write, SNS publish)\n3. Confirm backup bucket exists and is accessible\n4. Verify environment variables are configured correctly\n5. Check Lambda function timeout settings\n\nCloudWatch Log Group:\n--------------------\n/aws/lambda/S3AutoBackupFunction\n\nFor immediate assistance, review the Lambda function logs\nin CloudWatch or contact your cloud administrator.\n\n---\nAutomated AWS S3 Backup System\n"

/-- Body of the message built inside `send_failure_notification`. -/
def failureNotificationBody (now error_category error_msg : String) : String :=
  "\nBACKUP SYSTEM ERROR\n\nCategory: " ++ error_category
    ++ "\nError: " ++ error_msg
    ++ "\nTimestamp: " ++ now
    ++ "\n\nPlease check CloudWatch logs for detailed information.\n"

/-- `send_failure_notification(sns_topic_arn, error_msg, error_category)`:
returns immediately when the ARN is falsy (`None` or empty); otherwise
builds the message and publishes inside a `try`/`except` that swallows any
exception.  The first component is the function's (exception-free) outcome,
the second records the publish call it attempted, if any. -/
def send_failure_notification (w : World) (now : String)
    (sns_topic_arn : Option String) (error_msg error_category : String) :
    Except PyError Unit × List PublishRequest :=
  if ¬ optTruthy sns_topic_arn then (Except.ok (), [])
  else
    let req : PublishRequest :=
      { topicArn := sns_topic_arn.getD ""
        subject := "AWS Backup System Error - " ++ error_category
        message := failureNotificationBody now error_category error_msg }
    match w.publish req with
    | .ok _ => (Except.ok (), [req])
    | .error _ => (Except.ok (), [req])

/-! ### Field extraction from the event (lines 61–64) -/

/-- `event['Records']` : `KeyError('Records')` if absent. -/
def recordsOf (ev : Event) : Except PyError (List EventRecord) :=
  match ev.records with
  | some l => Except.ok l
  | none => Except.error (.keyError "Records")

/-- `…[0]` : `IndexError` on an empty list. -/
def firstRecord (l : List EventRecord) : Except PyError EventRecord :=
  match l with
  | r :: _ => Except.ok r
  | [] => Except.error (.indexError "list index out of range")

/-- `event['Records'][0]['s3']['bucket']['name']` (line 61). -/
def get_source_bucket (ev : Event) : Except PyError String := do
  let rs ← recordsOf ev
  let r ← firstRecord rs
  let s3 ← match r.s3 with
    | some x => Except.ok x
    | none => Except.error (PyError.keyError "s3")
  let b ← match s3.bucket with
    | some x => Except.ok x
    | none => Except.error (PyError.keyError "bucket")
  match b.name with
  | some x => Except.ok x
  | none => Except.error (PyError.keyError "name")

/-- `event['Records'][0]['s3']['object']['key']` (line 62). -/
def get_object_key (ev : Event) : Except PyError String := do
  let rs ← recordsOf ev
  let r ← firstRecord rs
  let s3 ← match r.s3 with
    | some x => Except.ok x
    | none => Except.error (PyError.keyError "s3")
  let o ← match s3.object with
    | some x => Except.ok x
    | none => Except.error (PyError.keyError "object")
  match o.key with
  | some x => Except.ok x
  | none => Except.error (PyError.keyError "key")

/-- `event['Records'][0]['s3']['object']['size']` (line 63). -/
def get_file_size (ev : Event) : Except PyError Nat := do
  let rs ← recordsOf ev
  let r ← firstRecord rs
  let s3 ← match r.s3 with
    | some x => Except.ok x
    | none => Except.error (PyError.keyError "s3")
  let o ← match s3.object with
    | some x => Except.ok x
    | none => Except.error (PyError.keyError "object")
  match o.size with
  | some x => Except.ok x
  | none => Except.error (PyError.keyError "size")

/-- `event['Records'][0]['eventTime']` (line 64). -/
def get_event_time (ev : Event) : Except PyError String := do
  let rs ← recordsOf ev
  let r ← firstRecord rs
  match r.eventTime with
  | some x => Except.ok x
  | none => Except.error (PyError.keyError "eventTime")

/-- Lines 61–64 in sequence: the first extraction error is the one raised. -/
def extractFields (ev : Event) :
    Except PyError (String × String × Nat × String) := do
  let source_bucket ← get_source_bucket ev
  let object_key ← get_object_key ev
  let file_size ← get_file_size ev
  let event_time ← get_event_time ev
  Except.ok (source_bucket, object_key, file_size, event_time)

/-! ### The `except` branches of `lambda_handler` (lines 125–186)

In every `except` branch `backup_bucket` and `sns_topic_arn` are already
bound (lines 47–48 run first and never raise), so the
`'sns_topic_arn' in locals()` checks always see the variable; its value may
still be `None`.  `source_bucket`/`object_key` are bound only if the
corresponding extraction line completed, hence the `Option String`
parameters of the generic branch. -/

/-- `except KeyError` (lines 125–137): log, call `send_failure_notification`
with category `"Invalid Event Data"`, re-raise the original `KeyError`. -/
def keyErrorBranch (w : World) (now : String) (sns_topic_arn : Option String)
    (e : PyError) : HandlerTrace :=
  let error_msg := "Invalid event structure - missing required field: " ++ e.str
  let sent := send_failure_notification w now sns_topic_arn error_msg
      "Invalid Event Data"
  { result := Except.error e
    classification := some .MalformedEvent
    copyCalls := []
    publishCalls := sent.2 }

/-- `except ValueError` (lines 139–150): log, call
`send_failure_notification` with category `"Configuration Error"`, re-raise
the original `ValueError`. -/
def valueErrorBranch (w : World) (now : String) (sns_topic_arn : Option String)
    (e : PyError) : HandlerTrace :=
  let error_msg := "Configuration error: " ++ e.str
  let sent := send_failure_notification w now sns_topic_arn error_msg
      "Configuration Error"
  { result := Except.error e
    classification := some .ConfigurationError
    copyCalls := []
    publishCalls := sent.2 }

/-- `except Exception` (lines 152–186): build `format_failure_message` from
whichever of `object_key` / `source_bucket` / `backup_bucket` are bound
(`'Unknown'` / `'Not configured'` sentinels otherwise), publish it inside a
`try` whose exception is swallowed — and only when `sns_topic_arn` is truthy
— then re-raise the original exception.  `copies`/`pubs` are the external
calls already issued inside the `try` body before the exception. -/
def genericBranch (w : World) (now : String) (sns_topic_arn : Option String)
    (e : PyError) (object_key source_bucket backup_bucket : Option String)
    (copies : List CopyRequest) (pubs : List PublishRequest) : HandlerTrace :=
  let error_msg := "Backup operation failed: " ++ e.str
  let error_type := e.typeName
  let failure_message := format_failure_message now error_msg error_type
      (object_key.getD "Unknown") (source_bucket.getD "Unknown")
      (backup_bucket.getD "Not configured")
  if optTruthy sns_topic_arn then
    let freq : PublishRequest :=
      { topicArn := sns_topic_arn.getD ""
        subject := "AWS Backup FAILURE - Action Required"
        message := failure_message }
    match w.publish freq with
    | .ok _ =>
      { result := Except.error e
        classification := some .StorageOperationError
        copyCalls := copies
        publishCalls := pubs ++ [freq] }
    | .error _ =>
      { result := Except.error e
        classification := some .StorageOperationError
        copyCalls := copies
        publishCalls := pubs ++ [freq] }
  else
    { result := Except.error e
      classification := some .StorageOperationError
      copyCalls := copies
      publishCalls := pubs }

/-- `lambda_handler(event, context)` (lines 20–186).  Reads the two
environment variables, validates them (`ValueError` on a falsy value, caught
by `valueErrorBranch`), extracts the four event fields (a `KeyError` is
caught by `keyErrorBranch`, an `IndexError` falls through to
`genericBranch`), issues the copy, publishes the success notification, and
returns the structured 200 response; any exception from the two external
calls reaches `genericBranch`. -/
def lambda_handler (w : World) (now : String) (env : Env) (event : Event) :
    HandlerTrace :=
  let backup_bucket := env.BACKUP_BUCKET
  let sns_topic_arn := env.SNS_TOPIC_ARN
  if ¬ optTruthy backup_bucket then
    valueErrorBranch w now sns_topic_arn
      (.valueError "BACKUP_BUCKET environment variable not set")
  else if ¬ optTruthy sns_topic_arn then
    valueErrorBranch w now sns_topic_arn
      (.valueError "SNS_TOPIC_ARN environment variable not set")
  else
    match extractFields event with
    | .error (.keyError k) =>
      keyErrorBranch w now sns_topic_arn (.keyError k)
    | .error (.indexError m) =>
      -- `Records[0]` raised before line 61 bound anything
      genericBranch w now sns_topic_arn (.indexError m) none none
        backup_bucket [] []
    | .error e =>
      -- unreachable: extraction raises only KeyError or IndexError
      genericBranch w now sns_topic_arn e none none backup_bucket [] []
    | .ok (source_bucket, object_key, file_size, _event_time) =>
      let req : CopyRequest :=
        { sourceBucket := source_bucket
          sourceKey := object_key
          destBucket := backup_bucket.getD ""
          destKey := object_key
          encryption := "AES256" }
      match w.copyObject req with
      | .error e =>
        genericBranch w now sns_topic_arn e (some object_key)
          (some source_bucket) backup_bucket [req] []
      | .ok _ =>
        let success_message := format_success_message object_key file_size
            source_bucket (backup_bucket.getD "") now
        let preq : PublishRequest :=
          { topicArn := sns_topic_arn.getD ""
            subject := "AWS Backup Success - File Replicated"
            message := success_message }
        match w.publish preq with
        | .error e =>
          genericBranch w now sns_topic_arn e (some object_key)
            (some source_bucket) backup_bucket [req] [preq]
        | .ok _ =>
          { result := Except.ok
              { statusCode := 200
                body :=
                  { message := "Backup completed successfully"
                    source := source_bucket ++ "/" ++ object_key
                    destination := backup_bucket.getD "" ++ "/" ++ object_key
                    size_bytes := file_size
                    timestamp := now } }
            classification := none
            copyCalls := [req]
            publishCalls := [preq] }

/-! ### Concrete test fixtures -/

/-- The spec's scenario event: bucket `"src"`, key `"a.txt"`, size `2048`,
time `"2024-01-01T00:00:00Z"`. -/
def evOK : Event :=
  { records := some [{ s3 := some { bucket := some { name := some "src" }
                                    object := some { key := some "a.txt"
                                                     size := some 2048 } }
                       eventTime := some "2024-01-01T00:00:00Z" }] }

/-- The scenario event with `Records[0].s3.object.key` absent. -/
def evNoKey : Event :=
  { records := some [{ s3 := some { bucket := some { name := some "src" }
                                    object := some { key := none
                                                     size := some 2048 } }
                       eventTime := some "2024-01-01T00:00:00Z" }] }

/-- An event whose `Records` list is present but empty. -/
def evEmptyRecords : Event := { records := some [] }

/-- The spec's scenario configuration. -/
def envOK : Env := { BACKUP_BUCKET := some "dst", SNS_TOPIC_ARN := some "topic1" }

/-- Both external calls succeed. -/
def wOK : World :=
  { copyObject := fun _ => Except.ok { etag := "etag-1" }
    publish := fun _ => Except.ok { messageId := "mid-1" } }

/-- The copy call raises; publish succeeds. -/
def wCopyFail : World :=
  { copyObject := fun _ => Except.error (.awsError "ClientError" "copy failed")
    publish := fun _ => Except.ok { messageId := "mid-1" } }

/-- The copy succeeds; every publish raises. -/
def wPubFail : World :=
  { copyObject := fun _ => Except.ok { etag := "etag-1" }
    publish := fun _ => Except.error (.awsError "ClientError" "sns down") }

/-! ### Helper lemmas about substring containment -/

theorem isPrefixOfChars_self_append (p s : List Char) :
    isPrefixOfChars p (p ++ s) = true := by
  induction p with
  | nil => simp [isPrefixOfChars]
  | cons c cs ih => simp [isPrefixOfChars, ih]

theorem isPrefixOfChars_extend (p l s : List Char)
    (h : isPrefixOfChars p l = true) : isPrefixOfChars p (l ++ s) = true := by
  induction p generalizing l with
  | nil => simp [isPrefixOfChars]
  | cons c cs ih =>
    cases l with
    | nil => simp [isPrefixOfChars] at h
    | cons d ds =>
      simp [isPrefixOfChars] at h ⊢
      exact ⟨h.1, ih ds h.2⟩

theorem containsSub_of_isPrefixOfChars (pat l : List Char)
    (h : isPrefixOfChars pat l = true) : containsSub pat l = true := by
  cases l with
  | nil => simpa [containsSub] using h
  | cons c cs => simp [containsSub, h]

theorem containsSub_append_left (pat a b : List Char)
    (h : containsSub pat a = true) : containsSub pat (a ++ b) = true := by
  induction a with
  | nil =>
    simp only [List.nil_append]
    cases pat with
    | nil => exact containsSub_of_isPrefixOfChars _ _ (by simp [isPrefixOfChars])
    | cons p ps => simp [containsSub, isPrefixOfChars] at h
  | cons c cs ih =>
    simp only [containsSub, Bool.or_eq_true] at h
    rcases h with h | h
    · exact containsSub_of_isPrefixOfChars _ _
        (by simpa using isPrefixOfChars_extend pat (c :: cs) b h)
    · simp only [List.cons_append, containsSub, Bool.or_eq_true]
      exact Or.inr (ih h)

theorem containsSub_append_right (pat a b : List Char)
    (h : containsSub pat b = true) : containsSub pat (a ++ b) = true := by
  induction a with
  | nil => simpa using h
  | cons c cs ih =>
    simp only [List.cons_append, containsSub, Bool.or_eq_true]
    exact Or.inr ih

theorem containsSub_self (pat : List Char) : containsSub pat pat = true := by
  have h : isPrefixOfChars pat (pat ++ []) = true := isPrefixOfChars_self_append pat []
  exact containsSub_of_isPrefixOfChars _ _ (by simpa using h)

theorem string_data_append (a b : String) : (a ++ b).data = a.data ++ b.data := by
  cases a
  cases b
  rfl

/-- An occurrence in the left part of an append remains an occurrence. -/
theorem strContains_append_left (a b x : String)
    (h : strContains a x = true) : strContains (a ++ b) x = true := by
  unfold strContains at h ⊢
  rw [string_data_append]
  exact containsSub_append_left _ _ _ h

/-- An occurrence in the right part of an append remains an occurrence. -/
theorem strContains_append_right (a b x : String)
    (h : strContains b x = true) : strContains (a ++ b) x = true := by
  unfold strContains at h ⊢
  rw [string_data_append]
  exact containsSub_append_right _ _ _ h

theorem strContains_self (x : String) : strContains x x = true :=
  containsSub_self x.data

theorem optTruthy_some_true (s : String) (h : s ≠ "") : optTruthy (some s) = true := by
  simp [optTruthy, h]

/-- With a truthy topic ARN, the generic `except Exception` branch re-raises
the original exception, classifies it as the generic fallback, and appends
exactly one failure-publish attempt, whatever that publish call returns. -/
theorem genericBranch_truthy (w : World) (now arn : String) (e : PyError)
    (object_key source_bucket backup_bucket : Option String)
    (copies : List CopyRequest) (pubs : List PublishRequest) (harn : arn ≠ "") :
    genericBranch w now (some arn) e object_key source_bucket backup_bucket copies pubs =
      ⟨Except.error e, some .StorageOperationError, copies,
        pubs ++ [⟨arn, "AWS Backup FAILURE - Action Required",
          format_failure_message now ("Backup operation failed: " ++ e.str)
            e.typeName (object_key.getD "Unknown") (source_bucket.getD "Unknown")
            (backup_bucket.getD "Not configured")⟩]⟩ := by
  unfold genericBranch
  rw [if_pos (optTruthy_some_true arn harn)]
  simp only [Option.getD_some]
  split <;> rfl

/-- With truthy configuration and a well-formed event, the handler reduces
to the copy call followed by the success publish, with the generic branch on
either exception. -/
theorem lambda_handler_run (w : World) (now bb arn : String) (ev : Event)
    (sb k t : String) (sz : Nat) (hbb : bb ≠ "") (harn : arn ≠ "")
    (hex : extractFields ev = Except.ok (sb, k, sz, t)) :
    lambda_handler w now ⟨some bb, some arn⟩ ev =
      (match w.copyObject ⟨sb, k, bb, k, "AES256"⟩ with
      | .error e => genericBranch w now (some arn) e (some k) (some sb) (some bb)
          [⟨sb, k, bb, k, "AES256"⟩] []
      | .ok _ =>
        match w.publish ⟨arn, "AWS Backup Success - File Replicated",
            format_success_message k sz sb bb now⟩ with
        | .error e => genericBranch w now (some arn) e (some k) (some sb) (some bb)
            [⟨sb, k, bb, k, "AES256"⟩]
            [⟨arn, "AWS Backup Success - File Replicated",
              format_success_message k sz sb bb now⟩]
        | .ok _ =>
          ⟨Except.ok ⟨200, ⟨"Backup completed successfully", sb ++ "/" ++ k,
              bb ++ "/" ++ k, sz, now⟩⟩, none,
            [⟨sb, k, bb, k, "AES256"⟩],
            [⟨arn, "AWS Backup Success - File Replicated",
              format_success_message k sz sb bb now⟩]⟩) := by
  unfold lambda_handler
  rw [if_neg (by simp [optTruthy_some_true bb hbb]),
      if_neg (by simp [optTruthy_some_true arn harn])]
  rw [hex]
  rfl

theorem optTruthy_eq_true_iff (o : Option String) :
    optTruthy o = true ↔ ∃ s, o = some s ∧ s ≠ "" := by
  cases o <;> simp [optTruthy]

theorem valueErrorBranch_fields (w : World) (now : String) (sns : Option String)
    (e : PyError) :
    (valueErrorBranch w now sns e).result = Except.error e ∧
    (valueErrorBranch w now sns e).classification = some .ConfigurationError ∧
    (valueErrorBranch w now sns e).copyCalls = [] := by
  unfold valueErrorBranch
  exact ⟨rfl, rfl, rfl⟩

/-- A falsy `BACKUP_BUCKET` sends the handler straight to the `ValueError`
branch. -/
theorem lambda_handler_bb_falsy (w : World) (now : String)
    (bbo snso : Option String) (ev : Event) (hbb : optTruthy bbo = false) :
    lambda_handler w now ⟨bbo, snso⟩ ev =
      valueErrorBranch w now snso
        (.valueError "BACKUP_BUCKET environment variable not set") := by
  unfold lambda_handler
  rw [if_pos (by simp [hbb])]

/-- A truthy `BACKUP_BUCKET` with a falsy `SNS_TOPIC_ARN` sends the handler
to the `ValueError` branch for the topic variable. -/
theorem lambda_handler_sns_falsy (w : World) (now : String)
    (bbo snso : Option String) (ev : Event) (hbb : optTruthy bbo = true)
    (hsns : optTruthy snso = false) :
    lambda_handler w now ⟨bbo, snso⟩ ev =
      valueErrorBranch w now snso
        (.valueError "SNS_TOPIC_ARN environment variable not set") := by
  unfold lambda_handler
  rw [if_neg (by simp [hbb]), if_pos (by simp [hsns])]

/-- With a truthy topic ARN, the `except KeyError` branch re-raises the
`KeyError`, classifies it as a malformed event, and attempts exactly the one
`send_failure_notification` publish, whose message names the missing field
and is built by `failureNotificationBody` (not `format_failure_message`). -/
theorem keyErrorBranch_truthy (w : World) (now arn k : String) (harn : arn ≠ "") :
    keyErrorBranch w now (some arn) (.keyError k) =
      ⟨Except.error (.keyError k), some .MalformedEvent, [],
        [⟨arn, "AWS Backup System Error - Invalid Event Data",
          failureNotificationBody now "Invalid Event Data"
            ("Invalid event structure - missing required field: " ++ ("'" ++ k ++ "'"))⟩]⟩ := by
  simp only [keyErrorBranch, send_failure_notification, PyError.str]
  rw [if_neg (not_not_intro (optTruthy_some_true arn harn))]
  split <;> rfl

/-- With truthy configuration, an extraction failure that is a `KeyError`
dispatches to the malformed-event branch. -/
theorem lambda_handler_extract_keyError (w : World) (now bb arn : String)
    (ev : Event) (k : String) (hbb : bb ≠ "") (harn : arn ≠ "")
    (hex : extractFields ev = Except.error (.keyError k)) :
    lambda_handler w now ⟨some bb, some arn⟩ ev =
      keyErrorBranch w now (some arn) (.keyError k) := by
  unfold lambda_handler
  rw [if_neg (by simp [optTruthy_some_true bb hbb]),
      if_neg (by simp [optTruthy_some_true arn harn])]
  simp only [hex]

/-- With truthy configuration, an extraction failure that is not a
`KeyError` (the `IndexError` from an empty `Records` list) falls through to
the generic branch with no event locals bound. -/
theorem lambda_handler_extract_other (w : World) (now bb arn : String)
    (ev : Event) (e : PyError) (hbb : bb ≠ "") (harn : arn ≠ "")
    (hne : ∀ k, e ≠ .keyError k)
    (hex : extractFields ev = Except.error e) :
    lambda_handler w now ⟨some bb, some arn⟩ ev =
      genericBranch w now (some arn) e none none (some bb) [] [] := by
  unfold lambda_handler
  rw [if_neg (by simp [optTruthy_some_true bb hbb]),
      if_neg (by simp [optTruthy_some_true arn harn])]
  simp only [hex]
  cases e with
  | keyError k => exact absurd rfl (hne k)
  | indexError m => rfl
  | valueError m => rfl
  | awsError n m => rfl

/-- Trace of the handler when the copy call raises. -/
theorem lambda_handler_copy_error (w : World) (now bb arn : String) (ev : Event)
    (sb k t : String) (sz : Nat) (e : PyError) (hbb : bb ≠ "") (harn : arn ≠ "")
    (hex : extractFields ev = Except.ok (sb, k, sz, t))
    (hcopy : w.copyObject ⟨sb, k, bb, k, "AES256"⟩ = Except.error e) :
    lambda_handler w now ⟨some bb, some arn⟩ ev =
      ⟨Except.error e, some .StorageOperationError, [⟨sb, k, bb, k, "AES256"⟩],
        [⟨arn, "AWS Backup FAILURE - Action Required",
          format_failure_message now ("Backup operation failed: " ++ e.str)
            e.typeName k sb bb⟩]⟩ := by
  rw [lambda_handler_run w now bb arn ev sb k t sz hbb harn hex]
  simp only [hcopy]
  exact genericBranch_truthy w now arn e (some k) (some sb) (some bb) _ _ harn

/-- Trace of the handler when the copy succeeds but the success-notification
publish raises: the publish exception reaches the generic branch, which
attempts one more (failure) publish and re-raises. -/
theorem lambda_handler_publish_error (w : World) (now bb arn : String)
    (ev : Event) (sb k t : String) (sz : Nat) (c : CopyResponse) (e : PyError)
    (hbb : bb ≠ "") (harn : arn ≠ "")
    (hex : extractFields ev = Except.ok (sb, k, sz, t))
    (hcopy : w.copyObject ⟨sb, k, bb, k, "AES256"⟩ = Except.ok c)
    (hpub : w.publish ⟨arn, "AWS Backup Success - File Replicated",
      format_success_message k sz sb bb now⟩ = Except.error e) :
    lambda_handler w now ⟨some bb, some arn⟩ ev =
      ⟨Except.error e, some .StorageOperationError, [⟨sb, k, bb, k, "AES256"⟩],
        [⟨arn, "AWS Backup Success - File Replicated",
          format_success_message k sz sb bb now⟩,
         ⟨arn, "AWS Backup FAILURE - Action Required",
          format_failure_message now ("Backup operation failed: " ++ e.str)
            e.typeName k sb bb⟩]⟩ := by
  rw [lambda_handler_run w now bb arn ev sb k t sz hbb harn hex]
  simp only [hcopy, hpub]
  exact genericBranch_truthy w now arn e (some k) (some sb) (some bb) _ _ harn

/-- Trace of the handler when both external calls succeed. -/
theorem lambda_handler_success_trace (w : World) (now bb arn : String)
    (ev : Event) (sb k t : String) (sz : Nat) (c : CopyResponse)
    (p : PublishResponse) (hbb : bb ≠ "") (harn : arn ≠ "")
    (hex : extractFields ev = Except.ok (sb, k, sz, t))
    (hcopy : w.copyObject ⟨sb, k, bb, k, "AES256"⟩ = Except.ok c)
    (hpub : w.publish ⟨arn, "AWS Backup Success - File Replicated",
      format_success_message k sz sb bb now⟩ = Except.ok p) :
    lambda_handler w now ⟨some bb, some arn⟩ ev =
      ⟨Except.ok ⟨200, ⟨"Backup completed successfully", sb ++ "/" ++ k,
          bb ++ "/" ++ k, sz, now⟩⟩, none,
        [⟨sb, k, bb, k, "AES256"⟩],
        [⟨arn, "AWS Backup Success - File Replicated",
          format_success_message k sz sb bb now⟩]⟩ := by
  rw [lambda_handler_run w now bb arn ev sb k t sz hbb harn hex]
  simp only [hcopy, hpub]

/-! ### Claim theorems -/

/-- C1 (counterexample): the claim's "Success iff the copy call succeeds"
fails on the code.  With the scenario event and configuration and a world
whose copy succeeds but whose publish raises, the handler issues the copy,
the copy call succeeds, and yet the handler propagates the (success-)
notification exception instead of returning Success. -/
theorem C1_counterexample :
    (lambda_handler wPubFail "T" envOK evOK).copyCalls =
      [⟨"src", "a.txt", "dst", "a.txt", "AES256"⟩] ∧
    wPubFail.copyObject ⟨"src", "a.txt", "dst", "a.txt", "AES256"⟩ =
      Except.ok ⟨"etag-1"⟩ ∧
    (lambda_handler wPubFail "T" envOK evOK).result =
      Except.error (.awsError "ClientError" "sns down") :=
  ⟨rfl, rfl, rfl⟩

/-- C1 (amended): for every valid event (well-formed `Records[0]` paths) and
complete configuration, the handler returns Success iff the copy call *and
the success-notification publish* both succeed; whenever it does return
Success, the status code is 200, the body's destination equals
`backupBucket/objectKey`, and the body's size equals the event's size. -/
theorem C1_success_iff_copy_and_publish (w : World) (now bb arn : String)
    (ev : Event) (sb k t : String) (sz : Nat) (hbb : bb ≠ "") (harn : arn ≠ "")
    (hex : extractFields ev = Except.ok (sb, k, sz, t)) :
    ((∃ r, (lambda_handler w now ⟨some bb, some arn⟩ ev).result = Except.ok r) ↔
      ((∃ c, w.copyObject ⟨sb, k, bb, k, "AES256"⟩ = Except.ok c) ∧
       (∃ p, w.publish ⟨arn, "AWS Backup Success - File Replicated",
          format_success_message k sz sb bb now⟩ = Except.ok p))) ∧
    (∀ r, (lambda_handler w now ⟨some bb, some arn⟩ ev).result = Except.ok r →
      r.statusCode = 200 ∧ r.body.destination = bb ++ "/" ++ k ∧
      r.body.size_bytes = sz) := by
  constructor
  · constructor
    · rintro ⟨r, hr⟩
      rcases hc : w.copyObject ⟨sb, k, bb, k, "AES256"⟩ with e | c
      · rw [lambda_handler_copy_error w now bb arn ev sb k t sz e hbb harn hex hc]
          at hr
        cases hr
      · rcases hp : w.publish ⟨arn, "AWS Backup Success - File Replicated",
            format_success_message k sz sb bb now⟩ with e | p
        · rw [lambda_handler_publish_error w now bb arn ev sb k t sz c e hbb harn
              hex hc hp] at hr
          cases hr
        · exact ⟨⟨c, rfl⟩, ⟨p, rfl⟩⟩
    · rintro ⟨⟨c, hc⟩, ⟨p, hp⟩⟩
      refine ⟨⟨200, ⟨"Backup completed successfully", sb ++ "/" ++ k,
          bb ++ "/" ++ k, sz, now⟩⟩, ?_⟩
      rw [lambda_handler_success_trace w now bb arn ev sb k t sz c p hbb harn
          hex hc hp]
  · intro r hr
    rcases hc : w.copyObject ⟨sb, k, bb, k, "AES256"⟩ with e | c
    · rw [lambda_handler_copy_error w now bb arn ev sb k t sz e hbb harn hex hc]
        at hr
      cases hr
    · rcases hp : w.publish ⟨arn, "AWS Backup Success - File Replicated",
          format_success_message k sz sb bb now⟩ with e | p
      · rw [lambda_handler_publish_error w now bb arn ev sb k t sz c e hbb harn
            hex hc hp] at hr
        cases hr
      · rw [lambda_handler_success_trace w now bb arn ev sb k t sz c p hbb harn
            hex hc hp] at hr
        injection hr with hr
        rw [← hr]
        exact ⟨rfl, rfl, rfl⟩

/-- Witness for the amended C1 at the spec's scenario (bucket `"src"`, key
`"a.txt"`, size 2048, backup bucket `"dst"`, copy and publish succeed):
status 200, destination `"dst/a.txt"`, size 2048. -/
theorem C1_witness :
    Response.statusCode ⟨200, ⟨"Backup completed successfully", "src/a.txt",
        "dst/a.txt", 2048, "T"⟩⟩ = 200 ∧
    Body.destination ⟨"Backup completed successfully", "src/a.txt",
        "dst/a.txt", 2048, "T"⟩ = "dst" ++ "/" ++ "a.txt" ∧
    Body.size_bytes ⟨"Backup completed successfully", "src/a.txt",
        "dst/a.txt", 2048, "T"⟩ = 2048 :=
  (C1_success_iff_copy_and_publish wOK "T" "dst" "topic1" evOK "src" "a.txt"
      "2024-01-01T00:00:00Z" 2048 (by decide) (by decide) rfl).2
    ⟨200, ⟨"Backup completed successfully", "src/a.txt", "dst/a.txt", 2048, "T"⟩⟩
    rfl

/-- C2: whenever the copy call raises — with any event and configuration
under which the copy call is reached, and any behaviour of the publish
collaborator, including one that raises on the failure notification — the
handler classifies the failure with the generic fallback, attempts exactly
one failure-notification publish, and re-raises the original copy error;
the secondary publish exception never replaces it. -/
theorem C2_copy_error_reraised (w : World) (now bb arn : String) (ev : Event)
    (sb k t : String) (sz : Nat) (e : PyError) (hbb : bb ≠ "") (harn : arn ≠ "")
    (hex : extractFields ev = Except.ok (sb, k, sz, t))
    (hcopy : w.copyObject ⟨sb, k, bb, k, "AES256"⟩ = Except.error e) :
    (lambda_handler w now ⟨some bb, some arn⟩ ev).result = Except.error e ∧
    (lambda_handler w now ⟨some bb, some arn⟩ ev).classification =
      some .StorageOperationError ∧
    (lambda_handler w now ⟨some bb, some arn⟩ ev).publishCalls =
      [⟨arn, "AWS Backup FAILURE - Action Required",
        format_failure_message now ("Backup operation failed: " ++ e.str)
          e.typeName k sb bb⟩] := by
  rw [lambda_handler_copy_error w now bb arn ev sb k t sz e hbb harn hex hcopy]
  exact ⟨rfl, rfl, rfl⟩

/-- Witness for C2: the scenario event against a world whose copy raises and
whose publish also raises — the copy error is still the propagated one and
the single failure publish was attempted. -/
theorem C2_witness :
    (lambda_handler ⟨wCopyFail.copyObject, wPubFail.publish⟩ "T" envOK
        evOK).result = Except.error (.awsError "ClientError" "copy failed") ∧
    (lambda_handler ⟨wCopyFail.copyObject, wPubFail.publish⟩ "T" envOK
        evOK).classification = some .StorageOperationError ∧
    (lambda_handler ⟨wCopyFail.copyObject, wPubFail.publish⟩ "T" envOK
        evOK).publishCalls =
      [⟨"topic1", "AWS Backup FAILURE - Action Required",
        format_failure_message "T" "Backup operation failed: copy failed"
          "ClientError" "a.txt" "src" "dst"⟩] :=
  C2_copy_error_reraised ⟨wCopyFail.copyObject, wPubFail.publish⟩ "T" "dst"
    "topic1" evOK "src" "a.txt" "2024-01-01T00:00:00Z" 2048
    (.awsError "ClientError" "copy failed") (by decide) (by decide) rfl rfl

/-- C4 (counterexample): the claim's "including the case where the Records
list is present but empty — fails with the MalformedEvent classification" is
wrong.  `Records[0]` on an empty list raises `IndexError`, which is not a
`KeyError` and is caught by the generic `except Exception` branch: with the
scenario configuration the handler classifies it as the generic fallback,
not as a malformed event (the copy is still never attempted). -/
theorem C4_counterexample :
    (lambda_handler wOK "T" envOK evEmptyRecords).classification =
      some .StorageOperationError ∧
    (lambda_handler wOK "T" envOK evEmptyRecords).classification ≠
      some .MalformedEvent ∧
    (lambda_handler wOK "T" envOK evEmptyRecords).result =
      Except.error (.indexError "list index out of range") ∧
    (lambda_handler wOK "T" envOK evEmptyRecords).copyCalls = [] := by
  refine ⟨rfl, ?_, rfl, rfl⟩
  intro h
  rw [show (lambda_handler wOK "T" envOK evEmptyRecords).classification =
      some .StorageOperationError from rfl] at h
  cases h

/-- C4 (amended): with complete configuration, for every event on which
field extraction fails the handler re-raises the extraction error and
attempts no copy call; a missing dict key (`KeyError`) is classified
`MalformedEvent`, while the empty-`Records` case (`IndexError`) falls to the
generic `StorageOperationError` classification. -/
theorem C4_malformed_event_no_copy (w : World) (now bb arn : String)
    (ev : Event) (e : PyError) (hbb : bb ≠ "") (harn : arn ≠ "")
    (hex : extractFields ev = Except.error e) :
    (lambda_handler w now ⟨some bb, some arn⟩ ev).copyCalls = [] ∧
    (lambda_handler w now ⟨some bb, some arn⟩ ev).result = Except.error e ∧
    (∀ k, e = .keyError k →
      (lambda_handler w now ⟨some bb, some arn⟩ ev).classification =
        some .MalformedEvent) ∧
    (∀ m, e = .indexError m →
      (lambda_handler w now ⟨some bb, some arn⟩ ev).classification =
        some .StorageOperationError) := by
  cases e with
  | keyError k =>
    rw [lambda_handler_extract_keyError w now bb arn ev k hbb harn hex]
    rw [keyErrorBranch_truthy w now arn k harn]
    exact ⟨rfl, rfl, fun _ _ => rfl, fun m hm => PyError.noConfusion hm⟩
  | indexError m =>
    rw [lambda_handler_extract_other w now bb arn ev (.indexError m) hbb harn
        (fun k hk => PyError.noConfusion hk) hex]
    rw [genericBranch_truthy w now arn (.indexError m) none none (some bb) [] []
      harn]
    exact ⟨rfl, rfl, fun k hk => PyError.noConfusion hk, fun _ _ => rfl⟩
  | valueError m =>
    rw [lambda_handler_extract_other w now bb arn ev (.valueError m) hbb harn
        (fun k hk => PyError.noConfusion hk) hex]
    rw [genericBranch_truthy w now arn (.valueError m) none none (some bb) [] []
      harn]
    exact ⟨rfl, rfl, fun k hk => PyError.noConfusion hk, fun m hm => PyError.noConfusion hm⟩
  | awsError n m =>
    rw [lambda_handler_extract_other w now bb arn ev (.awsError n m) hbb harn
        (fun k hk => PyError.noConfusion hk) hex]
    rw [genericBranch_truthy w now arn (.awsError n m) none none (some bb) [] []
      harn]
    exact ⟨rfl, rfl, fun k hk => PyError.noConfusion hk, fun m hm => PyError.noConfusion hm⟩

/-- Witness for the amended C4 at the event missing
`Records[0].s3.object.key`: re-raised `KeyError('key')`, `MalformedEvent`
classification, no copy call. -/
theorem C4_witness :
    (lambda_handler wOK "T" envOK evNoKey).copyCalls = [] ∧
    (lambda_handler wOK "T" envOK evNoKey).result =
      Except.error (.keyError "key") ∧
    (lambda_handler wOK "T" envOK evNoKey).classification =
      some .MalformedEvent := by
  have h := C4_malformed_event_no_copy wOK "T" "dst" "topic1" evNoKey
      (.keyError "key") (by decide) (by decide) rfl
  exact ⟨h.1, h.2.1, h.2.2.1 "key" rfl⟩

/-- C6 (counterexample): the claim quantifies over every configuration
missing `SNS_TOPIC_ARN`, but when `BACKUP_BUCKET` is missing as well the
propagated `ConfigurationError` names `BACKUP_BUCKET`, not `SNS_TOPIC_ARN`
(the bucket check runs first).  No publish is attempted either way. -/
theorem C6_counterexample :
    (lambda_handler wOK "T" ⟨none, none⟩ evOK).result =
      Except.error (.valueError "BACKUP_BUCKET environment variable not set") ∧
    strContains "BACKUP_BUCKET environment variable not set" "SNS_TOPIC_ARN" =
      false ∧
    (lambda_handler wOK "T" ⟨none, none⟩ evOK).publishCalls = [] :=
  ⟨rfl, by decide, rfl⟩

/-- C6 (amended): when `BACKUP_BUCKET` is configured (non-empty) and
`SNS_TOPIC_ARN` is missing or empty, the handler propagates the
`ConfigurationError` whose message mentions `SNS_TOPIC_ARN`, and no
notification publish is attempted on that failure path. -/
theorem C6_missing_sns_topic (w : World) (now bb : String)
    (snso : Option String) (ev : Event) (hbb : bb ≠ "")
    (hsns : optTruthy snso = false) :
    (lambda_handler w now ⟨some bb, snso⟩ ev).result =
      Except.error (.valueError "SNS_TOPIC_ARN environment variable not set") ∧
    strContains "SNS_TOPIC_ARN environment variable not set" "SNS_TOPIC_ARN" =
      true ∧
    (lambda_handler w now ⟨some bb, snso⟩ ev).publishCalls = [] ∧
    (lambda_handler w now ⟨some bb, snso⟩ ev).classification =
      some .ConfigurationError := by
  rw [lambda_handler_sns_falsy w now (some bb) snso ev
      (optTruthy_some_true bb hbb) hsns]
  refine ⟨rfl, by decide, ?_, rfl⟩
  simp only [valueErrorBranch, send_failure_notification]
  rw [if_pos (show ¬optTruthy snso = true from by simp [hsns])]

/-- Witness for the amended C6: bucket configured, topic variable absent. -/
theorem C6_witness :
    (lambda_handler wOK "T" ⟨some "dst", none⟩ evOK).result =
      Except.error (.valueError "SNS_TOPIC_ARN environment variable not set") ∧
    (lambda_handler wOK "T" ⟨some "dst", none⟩ evOK).publishCalls = [] := by
  have h := C6_missing_sns_topic wOK "T" "dst" none evOK (by decide) rfl
  exact ⟨h.1, h.2.2.1⟩

/-- C7 (counterexample): the claim says the failure notification for a
missing `Records[0].s3.object.key` carries partial context with
`objectKey="Unknown"`, but the `except KeyError` branch publishes the
`send_failure_notification` message, which carries only the category and the
error text: with the scenario configuration the one attempted publish's
message does not contain `"Unknown"` at all (that sentinel appears only in
the generic branch's `format_failure_message`). -/
theorem C7_counterexample :
    (lambda_handler wOK "T" envOK evNoKey).result =
      Except.error (.keyError "key") ∧
    (lambda_handler wOK "T" envOK evNoKey).publishCalls =
      [⟨"topic1", "AWS Backup System Error - Invalid Event Data",
        failureNotificationBody "T" "Invalid Event Data"
          "Invalid event structure - missing required field: 'key'"⟩] ∧
    strContains (failureNotificationBody "T" "Invalid Event Data"
      "Invalid event structure - missing required field: 'key'") "Unknown" =
      false :=
  ⟨rfl, rfl, by decide⟩

/-- C7 (amended): for every event whose extraction raises
`KeyError('key')` (missing `Records[0].s3.object.key`) under complete
configuration, the handler propagates the `KeyError` with the
`MalformedEvent` classification and attempts exactly one failure
notification, whose message names the missing field — it is the
`send_failure_notification` text, which carries no `objectKey` context. -/
theorem C7_missing_key_notification (w : World) (now bb arn : String)
    (ev : Event) (k : String) (hbb : bb ≠ "") (harn : arn ≠ "")
    (hex : extractFields ev = Except.error (.keyError k)) :
    (lambda_handler w now ⟨some bb, some arn⟩ ev).result =
      Except.error (.keyError k) ∧
    (lambda_handler w now ⟨some bb, some arn⟩ ev).classification =
      some .MalformedEvent ∧
    (lambda_handler w now ⟨some bb, some arn⟩ ev).publishCalls =
      [⟨arn, "AWS Backup System Error - Invalid Event Data",
        failureNotificationBody now "Invalid Event Data"
          ("Invalid event structure - missing required field: " ++
            ("'" ++ k ++ "'"))⟩] := by
  rw [lambda_handler_extract_keyError w now bb arn ev k hbb harn hex]
  rw [keyErrorBranch_truthy w now arn k harn]
  exact ⟨rfl, rfl, rfl⟩

/-- Witness for the amended C7 at the scenario event with the missing key. -/
theorem C7_witness :
    (lambda_handler wOK "T" envOK evNoKey).classification =
      some .MalformedEvent ∧
    (lambda_handler wOK "T" envOK evNoKey).publishCalls =
      [⟨"topic1", "AWS Backup System Error - Invalid Event Data",
        failureNotificationBody "T" "Invalid Event Data"
          ("Invalid event structure - missing required field: " ++
            ("'" ++ "key" ++ "'"))⟩] := by
  have h := C7_missing_key_notification wOK "T" "dst" "topic1" evNoKey "key"
      (by decide) (by decide) rfl
  exact ⟨h.2.1, h.2.2⟩

/-- C5: for every event, configuration and world, the handler's caller
observes either the structured success payload — whose status code is
always 200 — or a propagated exception that is one of the primary errors:
a configuration `ValueError`, the event-extraction error, the error of the
copy call actually issued, or the error of the success-notification publish
actually issued.  A failure-notification publish error is never the
propagated one. -/
theorem C5_success_or_propagated (w : World) (now : String) (env : Env)
    (ev : Event) :
    (∀ r, (lambda_handler w now env ev).result = Except.ok r →
      r.statusCode = 200) ∧
    (∀ e, (lambda_handler w now env ev).result = Except.error e →
      e = .valueError "BACKUP_BUCKET environment variable not set" ∨
      e = .valueError "SNS_TOPIC_ARN environment variable not set" ∨
      extractFields ev = Except.error e ∨
      (∃ req, req ∈ (lambda_handler w now env ev).copyCalls ∧
        w.copyObject req = Except.error e) ∨
      (∃ req, req ∈ (lambda_handler w now env ev).publishCalls ∧
        req.subject = "AWS Backup Success - File Replicated" ∧
        w.publish req = Except.error e)) := by
  rcases env with ⟨bbo, snso⟩
  by_cases hbb : optTruthy bbo = true
  case neg =>
    rw [lambda_handler_bb_falsy w now bbo snso ev (by simpa using hbb)]
    constructor
    · intro r hr
      rw [(valueErrorBranch_fields w now snso _).1] at hr
      cases hr
    · intro e he
      rw [(valueErrorBranch_fields w now snso _).1] at he
      injection he with he
      exact Or.inl he.symm
  case pos =>
    by_cases hsns : optTruthy snso = true
    case neg =>
      rw [lambda_handler_sns_falsy w now bbo snso ev hbb (by simpa using hsns)]
      constructor
      · intro r hr
        rw [(valueErrorBranch_fields w now snso _).1] at hr
        cases hr
      · intro e he
        rw [(valueErrorBranch_fields w now snso _).1] at he
        injection he with he
        exact Or.inr (Or.inl he.symm)
    case pos =>
      obtain ⟨bbs, rfl, hbbs⟩ := (optTruthy_eq_true_iff bbo).1 hbb
      obtain ⟨arns, rfl, harns⟩ := (optTruthy_eq_true_iff snso).1 hsns
      rcases hex : extractFields ev with e0 | ⟨sb, k, sz, t⟩
      · cases e0 with
        | keyError kk =>
          rw [lambda_handler_extract_keyError w now bbs arns ev kk hbbs harns
              hex, keyErrorBranch_truthy w now arns kk harns]
          constructor
          · intro r hr
            cases hr
          · intro e he
            injection he with he
            exact Or.inr (Or.inr (Or.inl (by rw [he])))
        | indexError m =>
          rw [lambda_handler_extract_other w now bbs arns ev (.indexError m)
              hbbs harns (fun k hk => PyError.noConfusion hk) hex,
            genericBranch_truthy w now arns (.indexError m) none none
              (some bbs) [] [] harns]
          constructor
          · intro r hr
            cases hr
          · intro e he
            injection he with he
            exact Or.inr (Or.inr (Or.inl (by rw [he])))
        | valueError m =>
          rw [lambda_handler_extract_other w now bbs arns ev (.valueError m)
              hbbs harns (fun k hk => PyError.noConfusion hk) hex,
            genericBranch_truthy w now arns (.valueError m) none none
              (some bbs) [] [] harns]
          constructor
          · intro r hr
            cases hr
          · intro e he
            injection he with he
            exact Or.inr (Or.inr (Or.inl (by rw [he])))
        | awsError n m =>
          rw [lambda_handler_extract_other w now bbs arns ev (.awsError n m)
              hbbs harns (fun k hk => PyError.noConfusion hk) hex,
            genericBranch_truthy w now arns (.awsError n m) none none
              (some bbs) [] [] harns]
          constructor
          · intro r hr
            cases hr
          · intro e he
            injection he with he
            exact Or.inr (Or.inr (Or.inl (by rw [he])))
      · rcases hc : w.copyObject ⟨sb, k, bbs, k, "AES256"⟩ with ce | c
        · rw [lambda_handler_copy_error w now bbs arns ev sb k t sz ce hbbs
              harns hex hc]
          constructor
          · intro r hr
            cases hr
          · intro e he
            injection he with he
            refine Or.inr (Or.inr (Or.inr (Or.inl
              ⟨⟨sb, k, bbs, k, "AES256"⟩, by simp, ?_⟩)))
            rw [hc, he]
        · rcases hp : w.publish ⟨arns, "AWS Backup Success - File Replicated",
              format_success_message k sz sb bbs now⟩ with pe | p
          · rw [lambda_handler_publish_error w now bbs arns ev sb k t sz c pe
                hbbs harns hex hc hp]
            constructor
            · intro r hr
              cases hr
            · intro e he
              injection he with he
              refine Or.inr (Or.inr (Or.inr (Or.inr
                ⟨⟨arns, "AWS Backup Success - File Replicated",
                  format_success_message k sz sb bbs now⟩, by simp, rfl, ?_⟩)))
              rw [hp, he]
          · rw [lambda_handler_success_trace w now bbs arns ev sb k t sz c p
                hbbs harns hex hc hp]
            constructor
            · intro r hr
              injection hr with hr
              rw [← hr]
            · intro e he
              cases he

/-- Witness for C5 at the scenario success run: the returned status code is
200. -/
theorem C5_witness :
    Response.statusCode ⟨200, ⟨"Backup completed successfully", "src/a.txt",
        "dst/a.txt", 2048, "T"⟩⟩ = 200 :=
  (C5_success_or_propagated wOK "T" envOK evOK).1
    ⟨200, ⟨"Backup completed successfully", "src/a.txt", "dst/a.txt", 2048,
      "T"⟩⟩ rfl

/-- C9: `format_success_message` is pure and deterministic — identical
arguments give identical strings — and its output contains the object key,
the size in bytes (Python's `{n:,}` rendering) and in megabytes (`{x:.2f}`
rendering), the source bucket, the backup bucket, and the timestamp. -/
theorem C9_format_success_message_pure (k1 k2 sb1 sb2 bb1 bb2 t1 t2 : String)
    (sz1 sz2 : Nat) (hk : k1 = k2) (hsz : sz1 = sz2) (hsb : sb1 = sb2)
    (hbb : bb1 = bb2) (ht : t1 = t2) :
    format_success_message k1 sz1 sb1 bb1 t1 =
      format_success_message k2 sz2 sb2 bb2 t2 ∧
    strContains (format_success_message k1 sz1 sb1 bb1 t1) k1 = true ∧
    strContains (format_success_message k1 sz1 sb1 bb1 t1) (pyComma sz1) = true ∧
    strContains (format_success_message k1 sz1 sb1 bb1 t1) (pyMB2f sz1) = true ∧
    strContains (format_success_message k1 sz1 sb1 bb1 t1) sb1 = true ∧
    strContains (format_success_message k1 sz1 sb1 bb1 t1) bb1 = true ∧
    strContains (format_success_message k1 sz1 sb1 bb1 t1) t1 = true := by
  subst hk hsz hsb hbb ht
  refine ⟨rfl, ?_, ?_, ?_, ?_, ?_, ?_⟩
  · unfold format_success_message
    apply strContains_append_left
    apply strContains_append_left
    apply strContains_append_left
    apply strContains_append_left
    apply strContains_append_left
    apply strContains_append_left
    apply strContains_append_left
    apply strContains_append_left
    apply strContains_append_left
    apply strContains_append_left
    apply strContains_append_left
    apply strContains_append_right
    exact strContains_self _
  · unfold format_success_message
    apply strContains_append_left
    apply strContains_append_left
    apply strContains_append_left
    apply strContains_append_left
    apply strContains_append_left
    apply strContains_append_left
    apply strContains_append_left
    apply strContains_append_left
    apply strContains_append_left
    apply strContains_append_right
    exact strContains_self _
  · unfold format_success_message
    apply strContains_append_left
    apply strContains_append_left
    apply strContains_append_left
    apply strContains_append_left
    apply strContains_append_left
    apply strContains_append_left
    apply strContains_append_left
    apply strContains_append_right
    exact strContains_self _
  · unfold format_success_message
    apply strContains_append_left
    apply strContains_append_left
    apply strContains_append_left
    apply strContains_append_left
    apply strContains_append_left
    apply strContains_append_right
    exact strContains_self _
  · unfold format_success_message
    apply strContains_append_left
    apply strContains_append_left
    apply strContains_append_left
    apply strContains_append_right
    exact strContains_self _
  · unfold format_success_message
    apply strContains_append_left
    apply strContains_append_right
    exact strContains_self _

/-- Witness for C9 at the scenario arguments. -/
theorem C9_witness :
    format_success_message "a.txt" 2048 "src" "dst" "TS" =
      format_success_message "a.txt" 2048 "src" "dst" "TS" ∧
    strContains (format_success_message "a.txt" 2048 "src" "dst" "TS")
      "a.txt" = true ∧
    strContains (format_success_message "a.txt" 2048 "src" "dst" "TS")
      (pyComma 2048) = true ∧
    strContains (format_success_message "a.txt" 2048 "src" "dst" "TS")
      (pyMB2f 2048) = true ∧
    strContains (format_success_message "a.txt" 2048 "src" "dst" "TS")
      "src" = true ∧
    strContains (format_success_message "a.txt" 2048 "src" "dst" "TS")
      "dst" = true ∧
    strContains (format_success_message "a.txt" 2048 "src" "dst" "TS")
      "TS" = true :=
  C9_format_success_message_pure "a.txt" "a.txt" "src" "src" "dst" "dst"
    "TS" "TS" 2048 2048 rfl rfl rfl rfl rfl

/-- C10: `send_failure_notification` is total and never raises: its outcome
is always `ok ()` for every world, including worlds whose publish call
throws; when the topic ARN is falsy (`None` or empty) it attempts no publish
at all, and when the ARN is truthy it attempts exactly the one publish call
built from its arguments, swallowing any exception that call raises. -/
theorem C10_send_failure_notification_total (w : World) (now : String)
    (arn : Option String) (msg cat : String) :
    (send_failure_notification w now arn msg cat).1 = Except.ok () ∧
    (optTruthy arn = false → (send_failure_notification w now arn msg cat).2 = []) ∧
    (optTruthy arn = true → (send_failure_notification w now arn msg cat).2 =
      [{ topicArn := arn.getD ""
         subject := "AWS Backup System Error - " ++ cat
         message := failureNotificationBody now cat msg }]) := by
  unfold send_failure_notification
  by_cases h : optTruthy arn = true
  case pos =>
    rw [if_neg (by simp [h])]
    simp only []
    refine ⟨?_, ?_, ?_⟩
    · split <;> rfl
    · intro hf
      rw [h] at hf
      cases hf
    · intro _
      split <;> rfl
  case neg =>
    rw [if_pos h]
    exact ⟨rfl, fun _ => rfl, fun ht => absurd ht h⟩

/-- Witness for C10 at a concrete input whose publish call raises: the
function still returns normally and records the one attempted publish. -/
theorem C10_witness :
    (send_failure_notification wPubFail "T" (some "topic1") "m" "Configuration Error").1 =
      Except.ok () ∧
    (send_failure_notification wPubFail "T" (some "topic1") "m" "Configuration Error").2 =
      [{ topicArn := "topic1"
         subject := "AWS Backup System Error - Configuration Error"
         message := failureNotificationBody "T" "Configuration Error" "m" }] := by
  have h := C10_send_failure_notification_total wPubFail "T" (some "topic1") "m"
      "Configuration Error"
  exact ⟨h.1, h.2.2 rfl⟩

/-- C3: for every event (malformed ones included) and every world, a falsy
`BACKUP_BUCKET` or `SNS_TOPIC_ARN` makes the handler propagate the
corresponding `ValueError` (whose message names the missing variable), with
the `ConfigurationError` classification, and with no copy call issued — the
configuration check precedes event parsing and every storage call. -/
theorem C3_config_error_before_copy (w : World) (now : String) (env : Env)
    (ev : Event)
    (h : optTruthy env.BACKUP_BUCKET = false ∨ optTruthy env.SNS_TOPIC_ARN = false) :
    (lambda_handler w now env ev).classification = some .ConfigurationError ∧
    (lambda_handler w now env ev).copyCalls = [] ∧
    (optTruthy env.BACKUP_BUCKET = false →
      (lambda_handler w now env ev).result =
        Except.error (.valueError "BACKUP_BUCKET environment variable not set")) ∧
    (optTruthy env.BACKUP_BUCKET = true →
      (lambda_handler w now env ev).result =
        Except.error (.valueError "SNS_TOPIC_ARN environment variable not set")) := by
  by_cases hbb : optTruthy env.BACKUP_BUCKET = true
  · have hsns : optTruthy env.SNS_TOPIC_ARN = false := by
      rcases h with h | h
      · rw [hbb] at h; cases h
      · exact h
    simp [lambda_handler, hbb, hsns, valueErrorBranch]
  · simp only [Bool.not_eq_true] at hbb
    simp [lambda_handler, hbb, valueErrorBranch]

/-- Witness for C3 with `BACKUP_BUCKET` absent. -/
theorem C3_witness :
    (lambda_handler wOK "T" { BACKUP_BUCKET := none, SNS_TOPIC_ARN := some "topic1" }
        evOK).classification = some .ConfigurationError ∧
    (lambda_handler wOK "T" { BACKUP_BUCKET := none, SNS_TOPIC_ARN := some "topic1" }
        evOK).copyCalls = [] ∧
    (lambda_handler wOK "T" { BACKUP_BUCKET := none, SNS_TOPIC_ARN := some "topic1" }
        evOK).result =
      Except.error (.valueError "BACKUP_BUCKET environment variable not set") := by
  have h := C3_config_error_before_copy wOK "T"
      { BACKUP_BUCKET := none, SNS_TOPIC_ARN := some "topic1" } evOK (Or.inl rfl)
  exact ⟨h.1, h.2.1, h.2.2.1 rfl⟩

/-- C8: two invocations of the handler on the same event, the same
environment, the same clock, and the same backing state (external
collaborators given by the same deterministic functions) produce identical
traces — in particular the same Success/Failure classification. -/
theorem C8_idempotent_classification (w1 w2 : World) (now : String) (env : Env)
    (ev : Event) (hcopy : w1.copyObject = w2.copyObject)
    (hpub : w1.publish = w2.publish) :
    (lambda_handler w1 now env ev).classification =
      (lambda_handler w2 now env ev).classification ∧
    (lambda_handler w1 now env ev).result = (lambda_handler w2 now env ev).result := by
  have hw : w1 = w2 := by
    cases w1
    cases w2
    simp only at hcopy hpub
    rw [hcopy, hpub]
  rw [hw]
  exact ⟨rfl, rfl⟩

/-- Witness for C8: two runs of the scenario against the same backing
functions agree. -/
theorem C8_witness :
    (lambda_handler wOK "T" envOK evOK).classification =
      (lambda_handler wOK "T" envOK evOK).classification ∧
    (lambda_handler wOK "T" envOK evOK).result = (lambda_handler wOK "T" envOK evOK).result :=
  C8_idempotent_classification wOK wOK "T" envOK evOK rfl rfl

end Backup
